import Mathlib

/-!
Verification of the lyrics / metadata-enrichment core of the spotify
django backend (`songs/lyrics.py` and `songs/views.py`).

The Python code is shallowly embedded: JSON values become an inductive
`Json` type, the Django cache becomes an explicit list of expiring
entries, the network becomes an oracle mapping each outgoing request to
an `HttpOutcome`, and Python exceptions become `Except String`.
External HTTP requests performed by an operation are recorded in a
`List ExtCall` so that "no external call is made" is a provable
statement.
-/

namespace SpotifyBackend

/-- JSON values as delivered by `response.json()`.  Numbers are modelled
as integers (all numeric fields touched by the code are integral). -/
inductive Json where
  | null : Json
  | bool : Bool → Json
  | num : Int → Json
  | str : String → Json
  | arr : List Json → Json
  | obj : List (String × Json) → Json
deriving Repr

/-- Python truthiness of a JSON value (`if x:`). -/
def jTruthy : Json → Bool
  | .null => false
  | .bool b => b
  | .num n => n != 0
  | .str s => s != ""
  | .arr xs => !xs.isEmpty
  | .obj fs => !fs.isEmpty

/-- Python `isinstance(x, dict)`. -/
def isObj : Json → Bool
  | .obj _ => true
  | _ => false

/-- Key lookup in an object field list (first occurrence wins). -/
def objFind : List (String × Json) → String → Option Json
  | [], _ => none
  | (k, v) :: rest, key => if k == key then some v else objFind rest key

/-- Python `d.get(key, default)` on a value KNOWN to be a dict.
Returns the stored value even when it is `null`. -/
def pyGet (j : Json) (key : String) (dflt : Json) : Json :=
  match j with
  | .obj fs => match objFind fs key with
      | some v => v
      | none => dflt
  | _ => dflt

/-- Python `x.get(key, default)` on an arbitrary value: raises
`AttributeError` unless `x` is a dict. -/
def pyGetAttr (j : Json) (key : String) (dflt : Json) : Except String Json :=
  match j with
  | .obj fs => .ok (match objFind fs key with | some v => v | none => dflt)
  | _ => .error "AttributeError"

/-- Python `x[key]` with a string key: dict lookup (`KeyError` when the
key is absent), `TypeError` on any non-dict. -/
def pySubscript (j : Json) (key : String) : Except String Json :=
  match j with
  | .obj fs => match objFind fs key with
      | some v => .ok v
      | none => .error "KeyError"
  | _ => .error "TypeError"

/-- Python `len(x)`: defined for strings, lists and dicts, `TypeError`
otherwise. -/
def pyLen : Json → Except String Nat
  | .str s => .ok s.length
  | .arr xs => .ok xs.length
  | .obj fs => .ok fs.length
  | _ => .error "TypeError"

/-- Python `x[0]`: list indexing, string indexing (yields a 1-char
string); `KeyError` for a string-keyed dict, `TypeError` otherwise. -/
def pyIndex0 : Json → Except String Json
  | .arr [] => .error "IndexError"
  | .arr (x :: _) => .ok x
  | .str s => match s.data with
      | [] => .error "IndexError"
      | c :: _ => .ok (.str (String.mk [c]))
  | .obj _ => .error "KeyError"
  | _ => .error "TypeError"

/-- Python iteration `for x in j`: lists yield elements, strings yield
1-char strings, dicts yield their keys; other values raise
`TypeError`. -/
def pyIter : Json → Except String (List Json)
  | .arr xs => .ok xs
  | .str s => .ok (s.data.map fun c => .str (String.mk [c]))
  | .obj fs => .ok (fs.map fun kv => .str kv.1)
  | _ => .error "TypeError"

/-- Python `sep.join(xs)`: every element must be a string, otherwise
`TypeError`. -/
def pyJoin (sep : String) : List Json → Except String String
  | [] => .ok ""
  | [.str s] => .ok s
  | .str s :: rest => do
      let tail ← pyJoin sep rest
      .ok (s ++ sep ++ tail)
  | _ => .error "TypeError"

/-- Python `x - 60` used on `expires_in`: only defined for numbers. -/
def pySubNum (j : Json) (k : Int) : Except String Int :=
  match j with
  | .num n => .ok (n - k)
  | _ => .error "TypeError"

/- ### Python string primitives (kernel-computable re-implementations) -/

/-- Python `str.isspace` on the characters removed by `str.strip()`. -/
def isSpaceChar (c : Char) : Bool :=
  c == ' ' || c == '\t' || c == '\n' || c == '\r' || c.toNat == 11 || c.toNat == 12

/-- Drop leading whitespace. -/
def dropLeadingSpace : List Char → List Char
  | [] => []
  | c :: cs => if isSpaceChar c then dropLeadingSpace cs else c :: cs

/-- Python `s.strip()`. -/
def pyStrip (s : String) : String :=
  String.mk ((dropLeadingSpace (dropLeadingSpace s.data).reverse).reverse)

/-- ASCII lower-casing of one character (Python `str.lower` restricted
to the ASCII keys this code handles). -/
def charLower (c : Char) : Char :=
  if c.toNat ≥ 65 && c.toNat ≤ 90 then Char.ofNat (c.toNat + 32) else c

/-- Python `s.lower()`. -/
def pyLower (s : String) : String :=
  String.mk (s.data.map charLower)

/-- Python `c in s` for a single character. -/
def pyContainsChar (s : String) (c : Char) : Bool :=
  s.data.contains c

/-- Python `s.startswith("#")`. -/
def startsWithHash (s : String) : Bool :=
  match s.data with
  | '#' :: _ => true
  | _ => false

/- ### Credential store (`LyricsService._load_spotify_credentials`) -/

/-- Dict assignment `credentials[key] = value`: overwrite in place, or
append a fresh key. -/
def dictInsert : List (String × String) → String → String → List (String × String)
  | [], k, v => [(k, v)]
  | (k0, v0) :: rest, k, v =>
      if k0 == k then (k0, v) :: rest else (k0, v0) :: dictInsert rest k v

/-- Lookup in a string dict. -/
def dictFind : List (String × String) → String → Option String
  | [], _ => none
  | (k0, v0) :: rest, k => if k0 == k then some v0 else dictFind rest k

/-- Python `line.split(sep, 1)` over the character list: the text before the
first occurrence of `sep` and the text after it. -/
def splitOnceChars (sep : Char) : List Char → List Char × List Char
  | [] => ([], [])
  | c :: cs =>
    if c == sep then ([], cs)
    else
      let r := splitOnceChars sep cs
      (c :: r.1, r.2)

/-- Python `line.split(sep, 1)` when `sep` is known to occur. -/
def splitOnce (s : String) (sep : Char) : String × String :=
  let r := splitOnceChars sep s.data
  (String.mk r.1, String.mk r.2)

/-- One iteration of the credential-parsing loop. -/
def credLine (acc : List (String × String)) (line : String) : List (String × String) :=
  if pyStrip line == "" || startsWithHash (pyStrip line) then acc
  else if pyContainsChar line ':' then
    let kv := splitOnce line ':'
    dictInsert acc (pyLower (pyStrip kv.1)) (pyStrip kv.2)
  else if pyContainsChar line '=' then
    let kv := splitOnce line '='
    dictInsert acc (pyLower (pyStrip kv.1)) (pyStrip kv.2)
  else acc

/-- Embeds `LyricsService._load_spotify_credentials` (lyrics.py lines 19-62).
The configuration resource is modelled as `Option (List String)`: the
lines of `apis/spotify.txt`, or `none` when the file is absent or
unreadable (both the explicit `os.path.exists` check and the
`except Exception` handler return `None`). -/
def load_spotify_credentials (file : Option (List String)) :
    Option (List (String × String)) :=
  match file with
  | none => none
  | some lines =>
      let credentials := lines.foldl credLine []
      if (dictFind credentials "client_id").isSome &&
         (dictFind credentials "client_secret").isSome then
        some credentials
      else
        none

/- ### Catalog records and state -/

/-- An album row (`albums.models.Album` as consumed by the views). -/
structure AlbumRec where
  id : Nat
  title : String
  releaseDate : Option String
deriving Repr, DecidableEq

/-- A catalog song row.  Fields follow `songs.models.Song` plus the
`lyrics` column used throughout `songs/lyrics.py` and created by
`artists/artist_songs.py`. -/
structure SongRec where
  id : Nat
  title : String
  artistId : Nat
  artistName : String
  album : Option AlbumRec
  duration : Nat
  audioFile : String
  totalStreams : Nat
  createdAt : String
  lyrics : Option String
deriving Repr, DecidableEq

/-- The dict produced by `LyricsService.get_lyrics` /
`_get_lyrics_from_sources` / `_error_response`.  Keys that a given
branch does not set are `none`. -/
structure LyricsResult where
  success : Bool
  error : Option String := none
  lyrics : Option String := none
  source : Option String := none
  song_title : Option String := none
  artist : Option String := none
  has_lyrics : Bool := false
  message : Option String := none
deriving Repr, DecidableEq

/-- A value stored in the Django cache by this code: either the spotify
access token (any JSON value) or a whole-chain lyrics result. -/
inductive CacheVal where
  | tok : Json → CacheVal
  | lyr : LyricsResult → CacheVal
deriving Repr

/-- One cache entry; `expiresAt` is an absolute time. -/
structure CacheEntry where
  key : String
  val : CacheVal
  expiresAt : Int
deriving Repr

/-- The mutable world visible to the service: the song table and the
cache. -/
structure State where
  songs : List SongRec
  cache : List CacheEntry
deriving Repr

/-- Embeds `Song.objects.get(id=song_id)`. -/
def lookup_song (s : State) (songId : Nat) : Option SongRec :=
  s.songs.find? fun r => r.id == songId

/-- Embeds `song.save()`: replace the row with the same id. -/
def save_song (s : State) (song : SongRec) : State :=
  { s with songs := s.songs.map fun r => if r.id == song.id then song else r }

/-- First cache entry with the given key. -/
def cache_find (entries : List CacheEntry) (key : String) : Option CacheEntry :=
  entries.find? fun e => e.key == key

/-- Embeds `cache.get(key)`: an expired entry (now ≥ expiresAt) is a miss. -/
def cache_get (s : State) (now : Int) (key : String) : Option CacheVal :=
  match cache_find s.cache key with
  | some e => if now < e.expiresAt then some e.val else none
  | none => none

/-- Embeds `cache.set(key, val, ttl)`: whole-entry replacement. -/
def cache_set (s : State) (now : Int) (key : String) (v : CacheVal) (ttl : Int) : State :=
  { s with cache := ⟨key, v, now + ttl⟩ :: s.cache.filter fun e => e.key != key }

/-- Embeds `cache.delete(key)`. -/
def cache_delete (s : State) (key : String) : State :=
  { s with cache := s.cache.filter fun e => e.key != key }

/- ### Network oracle -/

/-- Outcome of one `requests.get/post` call: either a raised transport
exception, or a response with a status code and a body (`none` when
`response.json()` would raise `ValueError`). -/
inductive HttpOutcome where
  | exn : String → HttpOutcome
  | resp : Nat → Option Json → HttpOutcome
deriving Repr

/-- The external world: responses keyed by the request actually issued.
Search and genius responses are keyed by the query string, audio
features by the track id value placed in the URL. -/
structure NetOracle where
  tokenResp : HttpOutcome
  searchResp : String → HttpOutcome
  featuresResp : Json → HttpOutcome
  geniusResp : String → HttpOutcome

/-- External calls performed by an operation, in order. -/
inductive ExtCall where
  | tokenExchange
  | spotifySearch
  | audioFeatures
  | geniusSearch
deriving Repr, DecidableEq

/- ### Service construction -/

/-- The `LyricsService` instance fields set in `__init__`. -/
structure LyricsService where
  genius_api_key : Option String
  spotify_credentials : Option (List (String × String))

/-- Process configuration: `settings.GENIUS_API_KEY` and the contents
of `apis/spotify.txt`. -/
structure Config where
  genius_api_key : Option String
  spotify_file : Option (List String)

/-- Embeds the `LyricsService()` constructor. -/
def mkService (cfg : Config) : LyricsService :=
  { genius_api_key := cfg.genius_api_key
    spotify_credentials := load_spotify_credentials cfg.spotify_file }

/-- Truthiness of `self.genius_api_key` (an `Optional[str]`). -/
def optStrTruthy : Option String → Bool
  | none => false
  | some s => s != ""

/- ### Token cache / auth exchange
(`LyricsService._get_spotify_access_token`, lyrics.py lines 146-191) -/

/-- Embeds `LyricsService._get_spotify_access_token`.  Returns the token value
(`Json.null` models Python `None`), the state after any cache write,
and the external calls made.  Every exception inside the `try` is
caught and mapped to `None`, so the function is total. -/
def get_spotify_access_token (svc : LyricsService) (s : State) (now : Int)
    (o : NetOracle) : Json × State × List ExtCall :=
  match svc.spotify_credentials with
  | none => (Json.null, s, [])
  | some _ =>
    match cache_get s now "spotify_access_token" with
    | some (.tok j) =>
        if jTruthy j then (j, s, [])
        else tokenExchange s now o
    | some (.lyr _) => tokenExchange s now o
    | none => tokenExchange s now o
where
  /-- The body of the `try` block: the POST to the token endpoint and
  the handling of its response. -/
  tokenExchange (s : State) (now : Int) (o : NetOracle) :
      Json × State × List ExtCall :=
    match o.tokenResp with
    | .exn _ => (Json.null, s, [.tokenExchange])
    | .resp status body =>
      if status == 200 then
        match body with
        | none => (Json.null, s, [.tokenExchange])
        | some tokenData =>
          match tokenData with
          | .obj fs =>
            let accessToken := pyGet (.obj fs) "access_token" Json.null
            let expiresIn := pyGet (.obj fs) "expires_in" (.num 3600)
            match pySubNum expiresIn 60 with
            | .ok ttl =>
                (accessToken,
                 cache_set s now "spotify_access_token" (.tok accessToken) ttl,
                 [.tokenExchange])
            | .error _ => (Json.null, s, [.tokenExchange])
          | _ => (Json.null, s, [.tokenExchange])
      else
        (Json.null, s, [.tokenExchange])

/- ### Metadata client
(`LyricsService._get_spotify_track_info`, lyrics.py lines 193-267) -/

/-- The `track_info` dict built at lyrics.py lines 237-246.  Field
values keep their dynamic JSON type, exactly as the Python dict does. -/
structure TrackInfo where
  spotify_id : Json
  name : Json
  artists : List Json
  album : Json
  preview_url : Json
  external_urls : Json
  duration_ms : Json
  popularity : Json
deriving Repr

/-- The extraction at lyrics.py lines 236-254 (the inner `try`): builds
`track_info` from a value already known to be a dict.  The only raise
point is iterating a non-iterable `artists` value. -/
def extractTrack (track : Json) : Except String TrackInfo :=
  match pyIter (pyGet track "artists" (.arr [])) with
  | .error e => .error e
  | .ok elems =>
    let artists := (elems.filter fun a => isObj a).map fun a => pyGet a "name" (.str "")
    let albumVal := pyGet track "album" Json.null
    let album := if isObj albumVal then pyGet albumVal "name" (.str "") else .str ""
    .ok { spotify_id := pyGet track "id" (.str "")
          name := pyGet track "name" (.str "")
          artists := artists
          album := album
          preview_url := pyGet track "preview_url" Json.null
          external_urls := pyGet track "external_urls" (.obj [])
          duration_ms := pyGet track "duration_ms" Json.null
          popularity := pyGet track "popularity" Json.null }

/-- The body of `_get_spotify_track_info`'s `try` block, as a function
of the search response.  An `.error` models an exception that escapes
to the outer handlers (lines 260-265); paths the Python code handles
in place (non-200, bad JSON, no items, non-dict track, extraction
failure) already produce `.ok none`. -/
def track_search_body (out : HttpOutcome) : Except String (Option TrackInfo) :=
  match out with
  | .exn e => .error e
  | .resp status body =>
    if status == 200 then
      match body with
      | none => .ok none
      | some data =>
        match pyGetAttr data "tracks" (.obj []) with
        | .error e => .error e
        | .ok tracksVal =>
          match pyGetAttr tracksVal "items" (.arr []) with
          | .error e => .error e
          | .ok items =>
            if jTruthy items then
              match pyLen items with
              | .error e => .error e
              | .ok n =>
                if n > 0 then
                  match pyIndex0 items with
                  | .error e => .error e
                  | .ok track =>
                    if isObj track then
                      match extractTrack track with
                      | .ok info => .ok (some info)
                      | .error _ => .ok none
                    else
                      .ok none
                else
                  .ok none
            else
              .ok none
    else
      .ok none

/-- Embeds `_get_spotify_track_info` restricted to response handling: all
exceptions raised in the body are caught by the handlers at lyrics.py
lines 260-265, which fall through to `return None`. -/
def track_search_result (out : HttpOutcome) : Option TrackInfo :=
  match track_search_body out with
  | .ok v => v
  | .error _ => none

/-- The search query built at lyrics.py lines 208-212. -/
def searchQuery (song : SongRec) : String :=
  "track:" ++ song.title ++ " artist:" ++ song.artistName

/-- Embeds `LyricsService._get_spotify_track_info`: obtain a token (possibly
performing the exchange), then search.  The search request is an
external call whenever it is issued. -/
def get_spotify_track_info (svc : LyricsService) (s : State) (now : Int)
    (o : NetOracle) (song : SongRec) : Option TrackInfo × State × List ExtCall :=
  match get_spotify_access_token svc s now o with
  | (tokJ, s1, ev1) =>
    if jTruthy tokJ then
      (track_search_result (o.searchResp (searchQuery song)), s1, ev1 ++ [.spotifySearch])
    else
      (none, s1, ev1)

/- ### Audio features
(`LyricsService._get_comprehensive_spotify_data`, lyrics.py 269-339) -/

/-- The `track_info` dict optionally extended with the `audio_features` key. -/
structure CompInfo where
  base : TrackInfo
  audio_features : Option Json
deriving Repr

/-- The `audio_features` dict built at lyrics.py lines 303-317. -/
def featuresObj (fd : Json) : Json :=
  .obj [("danceability", pyGet fd "danceability" Json.null),
        ("energy", pyGet fd "energy" Json.null),
        ("key", pyGet fd "key" Json.null),
        ("loudness", pyGet fd "loudness" Json.null),
        ("mode", pyGet fd "mode" Json.null),
        ("speechiness", pyGet fd "speechiness" Json.null),
        ("acousticness", pyGet fd "acousticness" Json.null),
        ("instrumentalness", pyGet fd "instrumentalness" Json.null),
        ("liveness", pyGet fd "liveness" Json.null),
        ("valence", pyGet fd "valence" Json.null),
        ("tempo", pyGet fd "tempo" Json.null),
        ("duration_ms", pyGet fd "duration_ms" Json.null),
        ("time_signature", pyGet fd "time_signature" Json.null)]

/-- Handling of the audio-features response (lyrics.py 294-339): every
failure mode keeps the plain `track_info` (no `audio_features` key). -/
def featuresOf (out : HttpOutcome) : Option Json :=
  match out with
  | .exn _ => none
  | .resp status body =>
    if status == 200 then
      match body with
      | none => none
      | some fd => if isObj fd then some (featuresObj fd) else none
    else
      none

/-- Embeds `LyricsService._get_comprehensive_spotify_data`. -/
def get_comprehensive_spotify_data (svc : LyricsService) (s : State) (now : Int)
    (o : NetOracle) (song : SongRec) : Option CompInfo × State × List ExtCall :=
  match get_spotify_track_info svc s now o song with
  | (none, s1, ev1) => (none, s1, ev1)
  | (some info, s1, ev1) =>
    if !jTruthy info.spotify_id then
      (some ⟨info, none⟩, s1, ev1)
    else
      match get_spotify_access_token svc s1 now o with
      | (tokJ, s2, ev2) =>
        if !jTruthy tokJ then
          (some ⟨info, none⟩, s2, ev1 ++ ev2)
        else
          (some ⟨info, featuresOf (o.featuresResp info.spotify_id)⟩, s2,
           ev1 ++ ev2 ++ [.audioFeatures])

/- ### Lyrics fallback chain (`LyricsService`, lyrics.py 65-144, 341-424) -/

/-- Embeds `_scrape_genius_lyrics` (lyrics.py 407-414): an unimplemented
placeholder. -/
def scrape_genius_lyrics (_url : Json) : Option String :=
  none

/-- Body of `_get_genius_lyrics`'s `try` block (lyrics.py 375-404). -/
def genius_body (out : HttpOutcome) : Except String (Option String) :=
  match out with
  | .exn e => .error e
  | .resp status body =>
    if status == 200 then
      match body with
      | none => .error "ValueError"
      | some data =>
        match pyGetAttr data "response" (.obj []) with
        | .error e => .error e
        | .ok respVal =>
          match pyGetAttr respVal "hits" (.arr []) with
          | .error e => .error e
          | .ok hits =>
            if jTruthy hits then
              match pyIndex0 hits with
              | .error e => .error e
              | .ok hit0 =>
                match pySubscript hit0 "result" with
                | .error e => .error e
                | .ok songData =>
                  match pyGetAttr songData "url" Json.null with
                  | .error e => .error e
                  | .ok lyricsUrl =>
                    if jTruthy lyricsUrl then
                      .ok (scrape_genius_lyrics lyricsUrl)
                    else
                      .ok none
            else
              .ok none
    else
      .ok none

/-- The genius search query (lyrics.py 380-382). -/
def geniusQuery (song : SongRec) : String :=
  song.title ++ " " ++ song.artistName

/-- Embeds `_get_genius_lyrics`: the whole body is wrapped in
`try ... except Exception`, which returns `None`. -/
def get_genius_lyrics (s : State) (o : NetOracle) (song : SongRec) :
    Option String × State × List ExtCall :=
  (match genius_body (o.geniusResp (geniusQuery song)) with
   | .ok v => v
   | .error _ => none,
   s, [.geniusSearch])

/-- Embeds `_get_external_lyrics` (lyrics.py 362-371). -/
def get_external_lyrics (svc : LyricsService) (s : State) (o : NetOracle)
    (song : SongRec) : Option String × State × List ExtCall :=
  if optStrTruthy svc.genius_api_key then
    get_genius_lyrics s o song
  else
    (none, s, [])

/-- Embeds `_get_spotify_lyrics` (lyrics.py 341-360).  `songs.models.Song`
declares no `spotify_track_id` field, so `hasattr(song,
'spotify_track_id')` is false and the guarded save never runs.  The
`logger.info` f-string at line 358 evaluates
`', '.join(spotify_info['artists'])`, which raises `TypeError` when a
non-string slipped into the artists list; there is no handler in this
function, so the exception propagates. -/
def get_spotify_lyrics (svc : LyricsService) (s : State) (now : Int)
    (o : NetOracle) (song : SongRec) :
    Except String (Option String) × State × List ExtCall :=
  match get_spotify_track_info svc s now o song with
  | (none, s1, ev1) => (.ok none, s1, ev1)
  | (some info, s1, ev1) =>
    match pyJoin ", " info.artists with
    | .ok _ => (.ok none, s1, ev1)
    | .error e => (.error e, s1, ev1)

/-- Embeds `_error_response` (lyrics.py 416-424). -/
def error_response (msg : String) : LyricsResult :=
  { success := false, error := some msg, lyrics := none, source := none,
    has_lyrics := false }

/-- Truthiness of `song.lyrics and song.lyrics.strip()` (lyrics.py 95). -/
def lyricsNonBlank (song : SongRec) : Bool :=
  match song.lyrics with
  | none => false
  | some l => l != "" && pyStrip l != ""

/-- Truthiness used on `spotify_lyrics` / `external_lyrics`. -/
def optLyrTruthy : Option String → Bool
  | none => false
  | some l => l != ""

/-- Embeds `_get_lyrics_from_sources` (lyrics.py 91-144). -/
def get_lyrics_from_sources (svc : LyricsService) (s : State) (now : Int)
    (o : NetOracle) (song : SongRec) :
    Except String LyricsResult × State × List ExtCall :=
  if lyricsNonBlank song then
    (.ok { success := true, lyrics := song.lyrics, source := some "database",
           song_title := some song.title, artist := some song.artistName,
           has_lyrics := true },
     s, [])
  else
    match get_spotify_lyrics svc s now o song with
    | (.error e, s1, ev1) => (.error e, s1, ev1)
    | (.ok spotifyLyrics, s1, ev1) =>
      if optLyrTruthy spotifyLyrics then
        let song1 := { song with lyrics := spotifyLyrics }
        (.ok { success := true, lyrics := spotifyLyrics, source := some "spotify",
               song_title := some song.title, artist := some song.artistName,
               has_lyrics := true },
         save_song s1 song1, ev1)
      else
        match get_external_lyrics svc s1 o song with
        | (externalLyrics, s2, ev2) =>
          if optLyrTruthy externalLyrics then
            let song2 := { song with lyrics := externalLyrics }
            (.ok { success := true, lyrics := externalLyrics,
                   source := some "external_api",
                   song_title := some song.title, artist := some song.artistName,
                   has_lyrics := true },
             save_song s2 song2, ev1 ++ ev2)
          else
            (.ok { success := true, lyrics := none, source := none,
                   song_title := some song.title, artist := some song.artistName,
                   has_lyrics := false,
                   message := some "Lyrics not available for this song" },
             s2, ev1 ++ ev2)

/-- The cache key built at lyrics.py line 76. -/
def lyricsCacheKey (songId : Nat) : String :=
  "lyrics_" ++ toString songId

/-- Embeds `LyricsService.get_lyrics` (lyrics.py 65-89). -/
def get_lyrics (svc : LyricsService) (s : State) (songId : Nat) (now : Int)
    (o : NetOracle) : Except String LyricsResult × State × List ExtCall :=
  match lookup_song s songId with
  | none => (.ok (error_response "Song not found"), s, [])
  | some song =>
    match cache_get s now (lyricsCacheKey songId) with
    | some (.lyr cached) => (.ok cached, s, [])
    | _ =>
      match get_lyrics_from_sources svc s now o song with
      | (.error e, s1, ev1) => (.error e, s1, ev1)
      | (.ok lyricsData, s1, ev1) =>
        (.ok lyricsData,
         cache_set s1 now (lyricsCacheKey songId) (.lyr lyricsData) 86400,
         ev1)

/-- Embeds `get_song_lyrics` (lyrics.py 429-435): construct the service, then
resolve. -/
def get_song_lyrics (cfg : Config) (s : State) (songId : Nat) (now : Int)
    (o : NetOracle) : Except String LyricsResult × State × List ExtCall :=
  get_lyrics (mkService cfg) s songId now o

/-- Embeds `refresh_lyrics_cache` (lyrics.py 438-446): evict, then resolve. -/
def refresh_lyrics_cache (cfg : Config) (s : State) (songId : Nat) (now : Int)
    (o : NetOracle) : Except String LyricsResult × State × List ExtCall :=
  get_song_lyrics cfg (cache_delete s (lyricsCacheKey songId)) songId now o

/- ### Enrichment façade and HTTP views (`songs/views.py`) -/

/-- The `spotify_data` dict built at views.py lines 70-86. -/
structure SpotifyData where
  spotify_id : Json
  preview_url : Json
  external_url : Json
  popularity : Json
  album_image : Json
  duration_ms : Json
  audio_features : Json
deriving Repr

/-- The album sub-object added at views.py lines 58-63. -/
structure AlbumOut where
  id : Nat
  title : String
  release_date : Option String
deriving Repr

/-- One record of the batch response (views.py lines 44-95). -/
structure SongInfo where
  id : Nat
  title : String
  duration : Nat
  duration_formatted : String
  artist_id : Nat
  artist_name : String
  streams : Nat
  created_at : String
  album : Option AlbumOut
  spotify_data : Option SpotifyData
deriving Repr

/-- Embeds `Song.duration_formatted` (models.py lines 18-22):
`f"{minutes}:{seconds:02d}"`. -/
def duration_formatted (d : Nat) : String :=
  toString (d / 60) ++ ":" ++ (if d % 60 < 10 then "0" else "") ++ toString (d % 60)

/-- The `spotify_data` extraction at views.py lines 70-86.  An `.error`
models an exception escaping to the handler at line 90 (reachable via
`images[0].get('url')` on a non-dict element, or `len(images)` on a
truthy non-sized value). -/
def extract_spotify_data (c : CompInfo) : Except String SpotifyData :=
  let externalUrl :=
    if isObj c.base.external_urls then pyGet c.base.external_urls "spotify" Json.null
    else Json.null
  let albumData := c.base.album
  let albumImageE : Except String Json :=
    if isObj albumData then
      let images := pyGet albumData "images" (.arr [])
      if jTruthy images then
        match pyLen images with
        | .error e => .error e
        | .ok n =>
          if n > 0 then
            match pyIndex0 images with
            | .error e => .error e
            | .ok img0 => pyGetAttr img0 "url" Json.null
          else
            .ok Json.null
      else
        .ok Json.null
    else
      .ok Json.null
  match albumImageE with
  | .error e => .error e
  | .ok albumImage =>
    .ok { spotify_id := c.base.spotify_id
          preview_url := c.base.preview_url
          external_url := externalUrl
          popularity := c.base.popularity
          album_image := albumImage
          duration_ms := c.base.duration_ms
          audio_features := c.audio_features.getD (.obj []) }

/-- The per-record loop body of `get_song_details_with_spotify_data`
(views.py lines 42-95): basic catalog fields, then best-effort
enrichment with a catch-all that degrades `spotify_data` to `None`. -/
def build_record (svc : LyricsService) (s : State) (now : Int) (o : NetOracle)
    (song : SongRec) : SongInfo × State × List ExtCall :=
  match get_comprehensive_spotify_data svc s now o song with
  | (compInfo, s1, ev1) =>
    let sd : Option SpotifyData :=
      match compInfo with
      | none => none
      | some c =>
        match extract_spotify_data c with
        | .ok v => some v
        | .error _ => none
    ({ id := song.id
       title := song.title
       duration := song.duration
       duration_formatted := duration_formatted song.duration
       artist_id := song.artistId
       artist_name := song.artistName
       streams := song.totalStreams
       created_at := song.createdAt
       album := song.album.map fun a => ⟨a.id, a.title, a.releaseDate⟩
       spotify_data := sd },
     s1, ev1)

/-- The JSON response of `get_song_details_with_spotify_data`. -/
structure DetailsResp where
  status : Nat
  error : Option String
  songs : List SongInfo
deriving Repr

/-- The serial enrichment loop, threading cache state across records. -/
def enrichAll (svc : LyricsService) (now : Int) (o : NetOracle) :
    List SongRec → State → List SongInfo × State
  | [], s => ([], s)
  | song :: rest, s =>
    match build_record svc s now o song with
    | (rec, s1, _) =>
      match enrichAll svc now o rest s1 with
      | (recs, s2) => (rec :: recs, s2)

/-- Embeds `get_song_details_with_spotify_data` (views.py lines 18-98).
`songId = none` is the all-songs batch; `songId = some id` is the
single-song path, whose catalog miss returns a 404. -/
def get_song_details_with_spotify_data (cfg : Config) (s : State)
    (songId : Option Nat) (now : Int) (o : NetOracle) : DetailsResp × State :=
  match songId with
  | some id =>
    match lookup_song s id with
    | none => ({ status := 404, error := some "Song not found", songs := [] }, s)
    | some song =>
      match enrichAll (mkService cfg) now o [song] s with
      | (recs, s1) => ({ status := 200, error := none, songs := recs }, s1)
  | none =>
    match enrichAll (mkService cfg) now o s.songs s with
    | (recs, s1) => ({ status := 200, error := none, songs := recs }, s1)

/-- The JSON response of the lyrics endpoints. -/
structure LyricsResp where
  status : Nat
  result : Option LyricsResult
  error : Option String
deriving Repr

/-- Embeds `get_lyrics_view` (views.py lines 183-196): a normal return is
serialized with the default status 200; an escaping exception becomes
a 500. -/
def get_lyrics_view (cfg : Config) (s : State) (songId : Nat) (now : Int)
    (o : NetOracle) : LyricsResp × State :=
  match get_song_lyrics cfg s songId now o with
  | (.ok r, s1, _) => ({ status := 200, result := some r, error := none }, s1)
  | (.error e, s1, _) => ({ status := 500, result := none, error := some e }, s1)

/-- Embeds `refresh_lyrics_view` (views.py lines 199-214). -/
def refresh_lyrics_view (cfg : Config) (s : State) (songId : Nat) (now : Int)
    (o : NetOracle) : LyricsResp × State :=
  match refresh_lyrics_cache cfg s songId now o with
  | (.ok r, s1, _) => ({ status := 200, result := some r, error := none }, s1)
  | (.error e, s1, _) => ({ status := 500, result := none, error := some e }, s1)

/- ### Specification-side predicates -/

/-- Holds when `b` agrees with `a` on every field other than `lyrics`. -/
def sameExceptLyrics (a b : SongRec) : Prop :=
  b = { a with lyrics := b.lyrics }

/-- Every lyrics value sitting in the cache was produced by the
resolution chain, hence has `success = true`.  This is the invariant
the running system maintains (the only `cache.set` on a lyrics key
stores a `_get_lyrics_from_sources` result). -/
def cacheLyrWF (s : State) : Prop :=
  ∀ e ∈ s.cache, ∀ r, e.val = CacheVal.lyr r → r.success = true

/- ### Concrete inputs used in witnesses and counterexamples -/

/-- A catalog song without stored lyrics. -/
def songNoLyrics : SongRec :=
  ⟨1, "T", 1, "A", none, 100, "f1", 0, "2024-01-01T00:00:00", none⟩

/-- A catalog song whose stored lyrics are non-blank. -/
def songLaLaLa : SongRec :=
  ⟨2, "T2", 1, "A", none, 200, "f2", 0, "2024-01-01T00:00:00", some "la la la"⟩

/-- A two-song catalog with an empty cache. -/
def stTwoSongs : State := ⟨[songNoLyrics, songLaLaLa], []⟩

/-- The empty world. -/
def stEmpty : State := ⟨[], []⟩

/-- A single-song catalog holding only the song with stored lyrics. -/
def stW : State := ⟨[songLaLaLa], []⟩

/-- A service with credentials and a genius key configured. -/
def svcFull : LyricsService :=
  ⟨some "gkey", some [("client_id", "abc"), ("client_secret", "xyz")]⟩

/-- A service whose credential file was absent. -/
def svcNoCreds : LyricsService := ⟨none, none⟩

/-- A config whose credential file parses to full credentials. -/
def cfgFull : Config := ⟨some "gkey", some ["client_id: abc", "client_secret = xyz"]⟩

/-- A config with nothing configured. -/
def cfgEmpty : Config := ⟨none, none⟩

/-- A successful token-exchange response body. -/
def tokenBody : Json := .obj [("access_token", .str "tok"), ("expires_in", .num 3600)]

/-- A 200 search response whose single item carries a non-string artist
name. -/
def badArtistsBody : Json :=
  .obj [("tracks", .obj [("items",
    .arr [.obj [("artists", .arr [.obj [("name", .num 5)]])]])])]

/-- A 200 search response whose single track item carries only `id` and
`name`. -/
def idNameTrackBody : Json :=
  .obj [("tracks", .obj [("items",
    .arr [.obj [("id", .str "t1"), ("name", .str "N1")]])])]

/-- A 200 search response whose artists list mixes a number, a dict and
a string. -/
def mixedArtistsBody : Json :=
  .obj [("tracks", .obj [("items",
    .arr [.obj [("id", .str "t1"), ("name", .str "N1"),
                ("artists", .arr [.num 5, .obj [("name", .str "Z")], .str "w"])]])])]

/-- An oracle that answers the token exchange and serves the
bad-artists search body. -/
def oBadArtists : NetOracle :=
  ⟨.resp 200 (some tokenBody),
   fun _ => .resp 200 (some badArtistsBody),
   fun _ => .resp 404 none,
   fun _ => .resp 404 none⟩

/-- An oracle on which every request fails. -/
def oQuiet : NetOracle :=
  ⟨.resp 500 none,
   fun _ => .resp 404 none,
   fun _ => .resp 404 none,
   fun _ => .resp 404 none⟩

/-- The whole-chain result for `songLaLaLa`. -/
def rLaLaLa : LyricsResult :=
  { success := true, lyrics := some "la la la", source := some "database",
    song_title := some "T2", artist := some "A", has_lyrics := true }

/-- The state after the first `get_lyrics` call on `stW` at time 0. -/
def stW1 : State := cache_set stW 0 (lyricsCacheKey 2) (.lyr rLaLaLa) 86400

/-- The state after caching the token obtained at time 0. -/
def stTok : State :=
  cache_set stEmpty 0 "spotify_access_token" (.tok (.str "tok")) 3540

/-- The credential file of the spec's parsing example. -/
def credLines : List String := ["client_id: abc", "# comment", " ", "client_secret = xyz"]

/-- A credential file with upper-case keys. -/
def credLinesUpper : List String := ["CLIENT_ID: A", "Client_Secret = B"]

/-- A credential file missing `client_secret`. -/
def credLinesMissing : List String := ["client_id: abc"]

/-- Three catalog songs for the batch scenario. -/
def songT1 : SongRec := ⟨1, "T1", 1, "A", none, 61, "f1", 5, "c1", none⟩

/-- Second song of the batch scenario. -/
def songT2 : SongRec := ⟨2, "T2", 1, "A", none, 62, "f2", 6, "c2", none⟩

/-- Third song of the batch scenario. -/
def songT3 : SongRec := ⟨3, "T3", 1, "A", none, 63, "f3", 7, "c3", none⟩

/-- The batch catalog. -/
def stBatch : State := ⟨[songT1, songT2, songT3], []⟩

/-- A minimal 200 search body with the given id and name. -/
def trackBody (tid nm : String) : Json :=
  .obj [("tracks", .obj [("items", .arr [.obj [("id", .str tid), ("name", .str nm)]])])]

/-- The batch oracle: search succeeds for songs 1 and 3 and times out
for song 2; audio features are 404. -/
def oBatch : NetOracle :=
  ⟨.resp 200 (some tokenBody),
   fun q =>
     if q == "track:T1 artist:A" then .resp 200 (some (trackBody "s1" "N1"))
     else if q == "track:T2 artist:A" then .exn "timeout"
     else if q == "track:T3 artist:A" then .resp 200 (some (trackBody "s3" "N3"))
     else .resp 404 none,
   fun _ => .resp 404 none,
   fun _ => .resp 404 none⟩

/-- The enrichment produced for a minimal track with the given id. -/
def sdGood (tid : String) : SpotifyData :=
  ⟨.str tid, .null, .null, .null, .null, .null, .obj []⟩

/-- Expected batch record for song 1. -/
def recT1 : SongInfo := ⟨1, "T1", 61, "1:01", 1, "A", 5, "c1", none, some (sdGood "s1")⟩

/-- Expected batch record for song 2: enrichment degraded to `none`. -/
def recT2 : SongInfo := ⟨2, "T2", 62, "1:02", 1, "A", 6, "c2", none, none⟩

/-- Expected batch record for song 3. -/
def recT3 : SongInfo := ⟨3, "T3", 63, "1:03", 1, "A", 7, "c3", none, some (sdGood "s3")⟩

/- ### Helper lemmas -/

lemma cache_set_songs (s : State) (now : Int) (key : String) (v : CacheVal)
    (ttl : Int) : (cache_set s now key v ttl).songs = s.songs := rfl

lemma cache_delete_songs (s : State) (key : String) :
    (cache_delete s key).songs = s.songs := rfl

lemma genius_body_ok (out : HttpOutcome) (v : Option String)
    (h : genius_body out = Except.ok v) : v = none := by
  unfold genius_body at h
  repeat first | (split at h) | (simp_all [scrape_genius_lyrics])

lemma get_genius_lyrics_fst (s : State) (o : NetOracle) (song : SongRec) :
    (get_genius_lyrics s o song).1 = none := by
  unfold get_genius_lyrics
  split
  · rename_i v h
    exact genius_body_ok _ _ h
  · rfl

lemma get_genius_lyrics_state (s : State) (o : NetOracle) (song : SongRec) :
    (get_genius_lyrics s o song).2.1 = s := rfl

lemma get_external_lyrics_fst (svc : LyricsService) (s : State) (o : NetOracle)
    (song : SongRec) : (get_external_lyrics svc s o song).1 = none := by
  unfold get_external_lyrics
  split
  · exact get_genius_lyrics_fst s o song
  · rfl

lemma get_external_lyrics_state (svc : LyricsService) (s : State) (o : NetOracle)
    (song : SongRec) : (get_external_lyrics svc s o song).2.1 = s := by
  unfold get_external_lyrics
  split
  · rfl
  · rfl

lemma token_songs (svc : LyricsService) (s : State) (now : Int) (o : NetOracle) :
    (get_spotify_access_token svc s now o).2.1.songs = s.songs := by
  unfold get_spotify_access_token get_spotify_access_token.tokenExchange
  repeat' first | rfl | split | dsimp only

lemma track_songs (svc : LyricsService) (s : State) (now : Int) (o : NetOracle)
    (song : SongRec) :
    (get_spotify_track_info svc s now o song).2.1.songs = s.songs := by
  have h := token_songs svc s now o
  unfold get_spotify_track_info
  rcases heq : get_spotify_access_token svc s now o with ⟨tokJ, s1, ev1⟩
  rw [heq] at h
  dsimp only
  split <;> exact h

lemma spotify_lyrics_songs (svc : LyricsService) (s : State) (now : Int)
    (o : NetOracle) (song : SongRec) :
    (get_spotify_lyrics svc s now o song).2.1.songs = s.songs := by
  have h := track_songs svc s now o song
  unfold get_spotify_lyrics
  rcases heq : get_spotify_track_info svc s now o song with ⟨info, s1, ev1⟩
  rw [heq] at h
  cases info with
  | none => exact h
  | some i =>
    dsimp only
    split <;> exact h

lemma spotify_lyrics_ok (svc : LyricsService) (s : State) (now : Int)
    (o : NetOracle) (song : SongRec) (v : Option String)
    (h : (get_spotify_lyrics svc s now o song).1 = Except.ok v) : v = none := by
  unfold get_spotify_lyrics at h
  rcases heq : get_spotify_track_info svc s now o song with ⟨info, s1, ev1⟩
  rw [heq] at h
  cases info with
  | none => simpa using h.symm
  | some i =>
    dsimp only at h
    split at h <;> simp_all

lemma chain_songs (svc : LyricsService) (s : State) (now : Int) (o : NetOracle)
    (song : SongRec) :
    (get_lyrics_from_sources svc s now o song).2.1.songs = s.songs := by
  unfold get_lyrics_from_sources
  split
  · rfl
  · have hs := spotify_lyrics_songs svc s now o song
    rcases heq : get_spotify_lyrics svc s now o song with ⟨res, s1, ev1⟩
    rw [heq] at hs
    cases res with
    | error e => exact hs
    | ok v =>
      have hv : v = none := spotify_lyrics_ok svc s now o song v (by rw [heq])
      subst hv
      dsimp only [optLyrTruthy]
      have he := get_external_lyrics_fst svc s1 o song
      have hes := get_external_lyrics_state svc s1 o song
      rcases heq2 : get_external_lyrics svc s1 o song with ⟨ext, s2, ev2⟩
      rw [heq2] at he hes
      dsimp only at he hes
      subst he
      dsimp only [optLyrTruthy]
      rw [hes]
      exact hs

lemma chain_ok (svc : LyricsService) (s : State) (now : Int) (o : NetOracle)
    (song : SongRec) (r : LyricsResult)
    (h : (get_lyrics_from_sources svc s now o song).1 = Except.ok r) :
    r.success = true ∧
      ((r.source = some "database" ∧ r.lyrics = song.lyrics ∧ r.has_lyrics = true) ∨
       (r.source = none ∧ r.lyrics = none ∧ r.has_lyrics = false ∧
        r.message = some "Lyrics not available for this song")) := by
  unfold get_lyrics_from_sources at h
  split at h
  · cases h
    exact ⟨rfl, Or.inl ⟨rfl, rfl, rfl⟩⟩
  · rcases heq : get_spotify_lyrics svc s now o song with ⟨res, s1, ev1⟩
    rw [heq] at h
    cases res with
    | error e => exact absurd h (by simp)
    | ok v =>
      have hv : v = none := spotify_lyrics_ok svc s now o song v (by rw [heq])
      subst hv
      dsimp only [optLyrTruthy] at h
      have he := get_external_lyrics_fst svc s1 o song
      rcases heq2 : get_external_lyrics svc s1 o song with ⟨ext, s2, ev2⟩
      rw [heq2] at he
      dsimp only at he
      subst he
      rw [heq2] at h
      dsimp only [optLyrTruthy] at h
      cases h
      exact ⟨rfl, Or.inr ⟨rfl, rfl, rfl, rfl⟩⟩

lemma lookup_song_congr (s s' : State) (songId : Nat) (h : s'.songs = s.songs) :
    lookup_song s' songId = lookup_song s songId := by
  unfold lookup_song
  rw [h]

lemma get_lyrics_songs (svc : LyricsService) (s : State) (songId : Nat)
    (now : Int) (o : NetOracle) :
    (get_lyrics svc s songId now o).2.1.songs = s.songs := by
  unfold get_lyrics
  split
  · rfl
  rename_i song hsong
  split
  · rfl
  rename_i hcase
  have hc := chain_songs svc s now o song
  rcases heq : get_lyrics_from_sources svc s now o song with ⟨res, s1, ev1⟩
  rw [heq] at hc
  cases res with
  | error e => exact hc
  | ok lyricsData => exact hc

lemma cache_find_cons (e : CacheEntry) (l : List CacheEntry) (key : String) :
    cache_find (e :: l) key = if e.key == key then some e else cache_find l key := by
  unfold cache_find
  by_cases h : e.key == key <;> simp [List.find?, h]

lemma cache_find_filter (l : List CacheEntry) (key : String) :
    cache_find (l.filter fun e => e.key != key) key = none := by
  induction l with
  | nil => rfl
  | cons e rest ih =>
    by_cases h : e.key == key
    · simp only [List.filter, bne, h, Bool.not_true]
      exact ih
    · simp only [List.filter, bne, h, Bool.not_false]
      rw [cache_find_cons, if_neg (by simp [h])]
      exact ih

lemma cache_get_set (s : State) (now now' : Int) (key : String) (v : CacheVal)
    (ttl : Int) :
    cache_get (cache_set s now key v ttl) now' key =
      if now' < now + ttl then some v else none := by
  unfold cache_get cache_set
  rw [cache_find_cons, if_pos (by simp)]

lemma cache_get_delete (s : State) (key : String) (now : Int) :
    cache_get (cache_delete s key) now key = none := by
  unfold cache_get cache_delete
  rw [cache_find_filter]

lemma cache_get_mem (s : State) (now : Int) (key : String) (v : CacheVal)
    (h : cache_get s now key = some v) : ∃ e ∈ s.cache, e.val = v := by
  unfold cache_get at h
  cases hf : cache_find s.cache key with
  | none => rw [hf] at h; cases h
  | some e =>
    rw [hf] at h
    dsimp only at h
    by_cases hlt : now < e.expiresAt
    · rw [if_pos hlt] at h
      cases h
      exact ⟨e, List.mem_of_find?_eq_some hf, rfl⟩
    · rw [if_neg hlt] at h
      cases h

lemma forall2_refl_of {α : Type} (R : α → α → Prop) (l : List α)
    (h : ∀ x ∈ l, R x x) : List.Forall₂ R l l := by
  induction l with
  | nil => exact List.Forall₂.nil
  | cons a t ih =>
    exact List.Forall₂.cons (h a (by simp)) (ih fun x hx => h x (by simp [hx]))

/- ### Claim theorems -/

/-- C2: during lyrics resolution (`get_lyrics` for any song id), every
catalog song record is unchanged in all fields except possibly
`lyrics` — the only write-back the chain can perform is the lyrics
field (and with both providers yielding nothing, in fact no write
occurs). -/
theorem c2_lyrics_resolution_frame (svc : LyricsService) (s : State)
    (songId : Nat) (now : Int) (o : NetOracle) :
    List.Forall₂ sameExceptLyrics s.songs
      ((get_lyrics svc s songId now o).2.1.songs) := by
  rw [get_lyrics_songs]
  exact forall2_refl_of _ _ fun x _ => rfl

/-- C4: a catalog song whose stored lyrics are non-blank makes the
resolution chain return immediately with the stored lyrics,
`source = database`, `has_lyrics = true`, unchanged state and zero
external calls. -/
theorem c4_database_short_circuit (svc : LyricsService) (s : State) (now : Int)
    (o : NetOracle) (song : SongRec) (l : String)
    (hl : song.lyrics = some l) (hnb : pyStrip l ≠ "") :
    get_lyrics_from_sources svc s now o song =
      (Except.ok { success := true, lyrics := some l, source := some "database",
                   song_title := some song.title, artist := some song.artistName,
                   has_lyrics := true },
       s, []) := by
  have hne : l ≠ "" := fun h => hnb (by rw [h]; rfl)
  have hb : lyricsNonBlank song = true := by
    unfold lyricsNonBlank
    rw [hl]
    simp [hne, hnb]
  unfold get_lyrics_from_sources
  rw [if_pos hb, hl]

/-- C4 witness: the spec's `"la la la"` example. -/
theorem c4_database_short_circuit_witness :
    get_lyrics_from_sources svcNoCreds stW 0 oQuiet songLaLaLa =
      (Except.ok { success := true, lyrics := some "la la la",
                   source := some "database", song_title := some "T2",
                   artist := some "A", has_lyrics := true },
       stW, []) :=
  c4_database_short_circuit svcNoCreds stW 0 oQuiet songLaLaLa "la la la" rfl
    (by decide)

/-- C7: the track search never lets an exception escape — whenever the
body of `_get_spotify_track_info` raises, the handlers return `None` —
and malformed shapes are safely defaulted: a single item holding only
`id` and `name` yields empty artists, empty album string and null
defaults, and non-dict entries in `artists` are filtered out. -/
theorem c7_track_search_defensive :
    (∀ out e, track_search_body out = Except.error e →
      track_search_result out = none) ∧
    track_search_result (.resp 200 (some idNameTrackBody)) =
      some ⟨.str "t1", .str "N1", [], .str "", Json.null, .obj [], Json.null,
            Json.null⟩ ∧
    track_search_result (.resp 200 (some mixedArtistsBody)) =
      some ⟨.str "t1", .str "N1", [.str "Z"], .str "", Json.null, .obj [],
            Json.null, Json.null⟩ := by
  refine ⟨?_, rfl, rfl⟩
  intro out e h
  unfold track_search_result
  rw [h]

/-- C7 witness: a 200 response whose body is a JSON list makes the body
raise `AttributeError`, and the caught result is `None`. -/
theorem c7_track_search_defensive_witness :
    track_search_result (.resp 200 (some (.arr []))) = none :=
  c7_track_search_defensive.1 (.resp 200 (some (.arr []))) "AttributeError" rfl

/-- C8: credential loading parses `key: value` and `key = value` lines,
skips blanks and `#` comments, lowercases keys, returns the mapping
when both required keys are present, and returns `None` for an absent
resource or a missing required key. -/
theorem c8_credential_loading :
    load_spotify_credentials none = none ∧
    load_spotify_credentials (some credLines) =
      some [("client_id", "abc"), ("client_secret", "xyz")] ∧
    load_spotify_credentials (some credLinesUpper) =
      some [("client_id", "A"), ("client_secret", "B")] ∧
    load_spotify_credentials (some credLinesMissing) = none ∧
    (∀ lines m, load_spotify_credentials (some lines) = some m →
      (dictFind m "client_id").isSome = true ∧
      (dictFind m "client_secret").isSome = true) := by
  refine ⟨rfl, rfl, rfl, rfl, ?_⟩
  intro lines m h
  unfold load_spotify_credentials at h
  dsimp only at h
  split at h
  · cases h
    rename_i hcond
    exact ⟨(Bool.and_eq_true .. |>.mp hcond).1, (Bool.and_eq_true .. |>.mp hcond).2⟩
  · cases h

/-- C8 witness: the required keys are present in the parsed example. -/
theorem c8_credential_loading_witness :
    (dictFind [("client_id", "abc"), ("client_secret", "xyz")] "client_id").isSome = true ∧
    (dictFind [("client_id", "abc"), ("client_secret", "xyz")] "client_secret").isSome = true :=
  c8_credential_loading.2.2.2.2 credLines _ rfl

/-- C3 counterexample: `_get_spotify_lyrics` does NOT return `None` for
every input song — on a 200 search response whose track carries a
non-string artist name, the `', '.join(...)` inside the log f-string
at lyrics.py line 358 raises `TypeError` instead. -/
theorem c3_spotify_lyrics_counterexample :
    (get_spotify_lyrics svcFull stTwoSongs 0 oBadArtists songNoLyrics).1 =
      Except.error "TypeError" := rfl

/-- C3 (amended): `_scrape_genius_lyrics` always returns `None`, and
`_get_spotify_lyrics` returns `None` whenever it returns at all (it can
instead raise `TypeError` on a non-string artist name); consequently
every normal return of the resolution chain has `source = database` or
no lyrics at all (`source = None`, `has_lyrics = false`). -/
theorem c3_providers_return_none (svc : LyricsService) (s : State) (now : Int)
    (o : NetOracle) (song : SongRec) (url : Json) :
    scrape_genius_lyrics url = none ∧
    (∀ v, (get_spotify_lyrics svc s now o song).1 = Except.ok v → v = none) ∧
    (∀ r, (get_lyrics_from_sources svc s now o song).1 = Except.ok r →
      r.source = some "database" ∨ (r.source = none ∧ r.has_lyrics = false)) := by
  refine ⟨rfl, fun v h => spotify_lyrics_ok svc s now o song v h, ?_⟩
  intro r h
  rcases chain_ok svc s now o song r h with ⟨-, h1 | h2⟩
  · exact Or.inl h1.1
  · exact Or.inr ⟨h2.1, h2.2.2.1⟩

/-- C3 witness: both implications instantiated — a no-credentials run
returns `.ok none` from the metadata step, and the chain on a song
with stored lyrics yields `source = database`. -/
theorem c3_providers_return_none_witness :
    (none : Option String) = none ∧
    (rLaLaLa.source = some "database" ∨
      (rLaLaLa.source = none ∧ rLaLaLa.has_lyrics = false)) :=
  ⟨(c3_providers_return_none svcNoCreds stW 0 oQuiet songNoLyrics Json.null).2.1
      none rfl,
   (c3_providers_return_none svcNoCreds stW 0 oQuiet songLaLaLa Json.null).2.2
      rLaLaLa rfl⟩

/-- C1 counterexample: a catalog miss at the lyrics endpoint does NOT
yield a non-2xx response — `get_lyrics_view` serializes the in-band
error dict with the default status 200. -/
theorem c1_lyrics_view_counterexample :
    (get_lyrics_view cfgEmpty stEmpty 7 0 oQuiet).1.status = 200 ∧
    ¬((get_lyrics_view cfgEmpty stEmpty 7 0 oQuiet).1.status < 200 ∨
      299 < (get_lyrics_view cfgEmpty stEmpty 7 0 oQuiet).1.status) := by
  constructor
  · rfl
  · intro h
    have h200 : (get_lyrics_view cfgEmpty stEmpty 7 0 oQuiet).1.status = 200 := rfl
    rw [h200] at h
    rcases h with h | h <;> omega

/-- C1 (amended): a catalog miss is surfaced as a 404 by the
song-details enrichment endpoint, and that miss is the only non-2xx
that endpoint produces; the lyrics endpoint reports a catalog miss
in-band, returning status 200 with the `success = false` error dict. -/
theorem c1_enrichment_error_boundary (cfg : Config) (s : State) (songId : Nat)
    (now : Int) (o : NetOracle) :
    (lookup_song s songId = none →
      (get_song_details_with_spotify_data cfg s (some songId) now o).1.status = 404) ∧
    (∀ idOpt : Option Nat,
      (get_song_details_with_spotify_data cfg s idOpt now o).1.status = 200 ∨
      ((get_song_details_with_spotify_data cfg s idOpt now o).1.status = 404 ∧
        ∃ i, idOpt = some i ∧ lookup_song s i = none)) ∧
    (lookup_song s songId = none →
      (get_lyrics_view cfg s songId now o).1 =
        { status := 200, result := some (error_response "Song not found"),
          error := none }) := by
  refine ⟨?_, ?_, ?_⟩
  · intro h
    unfold get_song_details_with_spotify_data
    dsimp only
    rw [h]
  · intro idOpt
    unfold get_song_details_with_spotify_data
    cases idOpt with
    | none =>
      left
      dsimp only
    | some i =>
      dsimp only
      cases hlk : lookup_song s i with
      | none =>
        right
        exact ⟨rfl, i, rfl, hlk⟩
      | some song =>
        left
        rfl
  · intro h
    unfold get_lyrics_view get_song_lyrics get_lyrics
    rw [h]

/-- C1 witness: the amended claim instantiated on the empty catalog. -/
theorem c1_enrichment_error_boundary_witness :
    (get_song_details_with_spotify_data cfgEmpty stEmpty (some 7) 0 oQuiet).1.status = 404 ∧
    (get_lyrics_view cfgEmpty stEmpty 7 0 oQuiet).1 =
      { status := 200, result := some (error_response "Song not found"),
        error := none } :=
  ⟨(c1_enrichment_error_boundary cfgEmpty stEmpty 7 0 oQuiet).1 rfl,
   (c1_enrichment_error_boundary cfgEmpty stEmpty 7 0 oQuiet).2.2 rfl⟩

/-- C9: the batch enrichment endpoint never fails (the all-songs call
always returns status 200 with no error), and in the concrete 3-record
scenario where the external search for record 2 times out, records 1
and 3 still carry their full enrichment while record 2 degrades to
`spotify_data = none`. -/
theorem c9_batch_isolation :
    (∀ cfg s now o,
      (get_song_details_with_spotify_data cfg s none now o).1.status = 200 ∧
      (get_song_details_with_spotify_data cfg s none now o).1.error = none) ∧
    (get_song_details_with_spotify_data cfgFull stBatch none 0 oBatch).1 =
      { status := 200, error := none, songs := [recT1, recT2, recT3] } := by
  refine ⟨?_, rfl⟩
  intro cfg s now o
  unfold get_song_details_with_spotify_data
  rcases heq : enrichAll (mkService cfg) now o s.songs s with ⟨recs, s1⟩
  exact ⟨rfl, rfl⟩

/-- C6: on a 200 token exchange, `access_token` and `expires_in`
(defaulting to 3600) are extracted and the token is cached for
`expires_in - 60` seconds: after issuance at `t₁` with
`expires_in = 3600` the token is returned from cache without a new
exchange while `t₂ < t₁ + 3540`, and a new exchange is triggered once
`t₁ + 3540 ≤ t₂`. -/
theorem c6_token_cache (svc : LyricsService) (creds : List (String × String))
    (s : State) (t₁ : Int) (tok : String) (o : NetOracle)
    (hcreds : svc.spotify_credentials = some creds)
    (hmiss : cache_get s t₁ "spotify_access_token" = none)
    (hresp : o.tokenResp = .resp 200 (some (.obj
      [("access_token", .str tok), ("expires_in", .num 3600)])))
    (htok : tok ≠ "") :
    get_spotify_access_token svc s t₁ o =
      (.str tok,
       cache_set s t₁ "spotify_access_token" (.tok (.str tok)) 3540,
       [.tokenExchange]) ∧
    (∀ t₂, t₂ < t₁ + 3540 →
      get_spotify_access_token svc
          (cache_set s t₁ "spotify_access_token" (.tok (.str tok)) 3540) t₂ o =
        (.str tok,
         cache_set s t₁ "spotify_access_token" (.tok (.str tok)) 3540, [])) ∧
    (∀ t₂, t₁ + 3540 ≤ t₂ →
      (get_spotify_access_token svc
          (cache_set s t₁ "spotify_access_token" (.tok (.str tok)) 3540)
          t₂ o).2.2 = [.tokenExchange]) ∧
    (∀ o' : NetOracle,
      o'.tokenResp = .resp 200 (some (.obj [("access_token", .str tok)])) →
      get_spotify_access_token svc s t₁ o' =
        (.str tok,
         cache_set s t₁ "spotify_access_token" (.tok (.str tok)) 3540,
         [.tokenExchange])) := by
  have hmain : get_spotify_access_token svc s t₁ o =
      (.str tok,
       cache_set s t₁ "spotify_access_token" (.tok (.str tok)) 3540,
       [.tokenExchange]) := by
    unfold get_spotify_access_token
    rw [hcreds]
    dsimp only
    rw [hmiss]
    unfold get_spotify_access_token.tokenExchange
    rw [hresp]
    rfl
  have hj : jTruthy (.str tok) = true := by
    simp [jTruthy, htok]
  refine ⟨hmain, ?_, ?_, ?_⟩
  · intro t₂ hlt
    unfold get_spotify_access_token
    rw [hcreds]
    dsimp only
    rw [cache_get_set, if_pos hlt]
    dsimp only
    rw [if_pos hj]
  · intro t₂ hge
    unfold get_spotify_access_token
    rw [hcreds]
    dsimp only
    rw [cache_get_set, if_neg (by omega)]
    dsimp only
    unfold get_spotify_access_token.tokenExchange
    repeat' first | rfl | split | dsimp only
  · intro o' hresp'
    unfold get_spotify_access_token
    rw [hcreds]
    dsimp only
    rw [hmiss]
    unfold get_spotify_access_token.tokenExchange
    rw [hresp']
    rfl

/-- C6 witness: the token obtained at time 0 is served from cache at
time 3539 and absent at time 3540. -/
theorem c6_token_cache_witness :
    get_spotify_access_token svcFull stEmpty 0 oBadArtists =
      (.str "tok", stTok, [.tokenExchange]) ∧
    get_spotify_access_token svcFull stTok 3539 oBadArtists =
      (.str "tok", stTok, []) ∧
    (get_spotify_access_token svcFull stTok 3540 oBadArtists).2.2 =
      [.tokenExchange] :=
  ⟨(c6_token_cache svcFull _ stEmpty 0 "tok" oBadArtists rfl rfl rfl
      (by decide)).1,
   (c6_token_cache svcFull _ stEmpty 0 "tok" oBadArtists rfl rfl rfl
      (by decide)).2.1 3539 (by decide),
   (c6_token_cache svcFull _ stEmpty 0 "tok" oBadArtists rfl rfl rfl
      (by decide)).2.2.1 3540 (by decide)⟩

/-- C5: a second `get_lyrics` call within 24 hours of a first call that
populated the cache returns the identical result, leaves the state
unchanged and performs no external call; `refresh_lyrics_cache` is
exactly cache eviction followed by re-resolution, and after eviction
the cache lookup for that song id always misses, forcing a live
re-resolution. -/
theorem c5_whole_chain_cache (cfg : Config) (s : State) (songId : Nat)
    (t₁ t₂ : Int) (o : NetOracle) (r : LyricsResult) (s₁ : State)
    (ev₁ : List ExtCall)
    (hmiss : cache_get s t₁ (lyricsCacheKey songId) = none)
    (h₁ : get_song_lyrics cfg s songId t₁ o = (Except.ok r, s₁, ev₁))
    (h₂ : t₁ ≤ t₂) (h₃ : t₂ < t₁ + 86400) :
    get_song_lyrics cfg s₁ songId t₂ o = (Except.ok r, s₁, []) ∧
    (∀ cfg' s' id t o', refresh_lyrics_cache cfg' s' id t o' =
      get_song_lyrics cfg' (cache_delete s' (lyricsCacheKey id)) id t o') ∧
    (∀ s' : State, ∀ id : Nat, ∀ t : Int,
      cache_get (cache_delete s' (lyricsCacheKey id)) t (lyricsCacheKey id) = none) := by
  refine ⟨?_, fun _ _ _ _ _ => rfl, fun s' id t => cache_get_delete s' _ t⟩
  unfold get_song_lyrics get_lyrics at h₁ ⊢
  cases hlk : lookup_song s songId with
  | none =>
    rw [hlk] at h₁
    dsimp only at h₁
    simp only [Prod.mk.injEq, Except.ok.injEq] at h₁
    obtain ⟨hr, hs, hev⟩ := h₁
    subst hs
    rw [hlk]
    dsimp only
    rw [hr]
  | some song =>
    rw [hlk] at h₁
    dsimp only at h₁
    rw [hmiss] at h₁
    dsimp only at h₁
    have hcsongs := chain_songs (mkService cfg) s t₁ o song
    rcases hch : get_lyrics_from_sources (mkService cfg) s t₁ o song with ⟨res, sc, evc⟩
    rw [hch] at h₁ hcsongs
    cases res with
    | error e => simp only [Prod.mk.injEq] at h₁; exact absurd h₁.1 (by simp)
    | ok d =>
      dsimp only at h₁ hcsongs
      simp only [Prod.mk.injEq, Except.ok.injEq] at h₁
      obtain ⟨hd, hs, hev⟩ := h₁
      have hsongs : s₁.songs = s.songs := by
        rw [← hs, cache_set_songs]
        exact hcsongs
      rw [lookup_song_congr s s₁ songId hsongs, hlk]
      dsimp only
      have hcg2 : cache_get s₁ t₂ (lyricsCacheKey songId) =
          some (CacheVal.lyr d) := by
        rw [← hs, cache_get_set, if_pos h₃]
      rw [hcg2]
      dsimp only
      rw [hd]

/-- C5 witness: the first call at time 0 caches the database result for
`songLaLaLa`; the call at time 100 returns it unchanged with no
external call. -/
theorem c5_whole_chain_cache_witness :
    get_song_lyrics cfgEmpty stW1 2 100 oQuiet =
      (Except.ok rLaLaLa, stW1, []) :=
  (c5_whole_chain_cache cfgEmpty stW 2 0 100 oQuiet rLaLaLa stW1 [] rfl rfl
    (by decide) (by decide)).1

/-- C10: a `get_lyrics` result (under the invariant that cached lyrics
entries are chain results) has `success = false` exactly when the song
id is not in the catalog, in which case the result is the standard
error dict with `lyrics = None`, `source = None`,
`has_lyrics = false`; in every other case, including when no source
had lyrics, `success = true`. -/
theorem c10_success_iff_found (cfg : Config) (s : State) (songId : Nat)
    (now : Int) (o : NetOracle) (hwf : cacheLyrWF s) (r : LyricsResult)
    (s' : State) (ev : List ExtCall)
    (h : get_song_lyrics cfg s songId now o = (Except.ok r, s', ev)) :
    (r.success = false ↔ lookup_song s songId = none) ∧
    (lookup_song s songId = none → r = error_response "Song not found") := by
  unfold get_song_lyrics get_lyrics at h
  cases hlk : lookup_song s songId with
  | none =>
    rw [hlk] at h
    dsimp only at h
    simp only [Prod.mk.injEq, Except.ok.injEq] at h
    obtain ⟨hr, -, -⟩ := h
    exact ⟨⟨fun _ => rfl, fun _ => by rw [← hr]; rfl⟩, fun _ => hr.symm⟩
  | some song =>
    rw [hlk] at h
    dsimp only at h
    have hsucc : r.success = true := by
      cases hcg : cache_get s now (lyricsCacheKey songId) with
      | some v =>
        cases v with
        | lyr cached =>
          rw [hcg] at h
          dsimp only at h
          simp only [Prod.mk.injEq, Except.ok.injEq] at h
          obtain ⟨hr, -, -⟩ := h
          obtain ⟨e, he, hev⟩ := cache_get_mem s now _ _ hcg
          rw [← hr]
          exact hwf e he cached hev
        | tok j =>
          rw [hcg] at h
          dsimp only at h
          rcases hch : get_lyrics_from_sources (mkService cfg) s now o song
            with ⟨res, sc, evc⟩
          rw [hch] at h
          cases res with
          | error e => simp only [Prod.mk.injEq] at h; exact absurd h.1 (by simp)
          | ok d =>
            dsimp only at h
            simp only [Prod.mk.injEq, Except.ok.injEq] at h
            obtain ⟨hd, -, -⟩ := h
            rw [← hd]
            exact (chain_ok (mkService cfg) s now o song d (by rw [hch])).1
      | none =>
        rw [hcg] at h
        dsimp only at h
        rcases hch : get_lyrics_from_sources (mkService cfg) s now o song
          with ⟨res, sc, evc⟩
        rw [hch] at h
        cases res with
        | error e => simp only [Prod.mk.injEq] at h; exact absurd h.1 (by simp)
        | ok d =>
          dsimp only at h
          simp only [Prod.mk.injEq, Except.ok.injEq] at h
          obtain ⟨hd, -, -⟩ := h
          rw [← hd]
          exact (chain_ok (mkService cfg) s now o song d (by rw [hch])).1
    refine ⟨⟨fun hf => ?_, fun hn => ?_⟩, fun hn => ?_⟩
    · rw [hsucc] at hf; cases hf
    · cases hn
    · cases hn

/-- C10 witness: on a two-song catalog with an empty cache, looking up
an absent id yields the `success = false` error dict. -/
theorem c10_success_iff_found_witness :
    ((error_response "Song not found").success = false ↔
      lookup_song stTwoSongs 99 = none) ∧
    (lookup_song stTwoSongs 99 = none →
      error_response "Song not found" = error_response "Song not found") :=
  c10_success_iff_found cfgEmpty stTwoSongs 99 0 oQuiet
    (fun e he => absurd he (List.not_mem_nil e))
    (error_response "Song not found") stTwoSongs [] rfl

end SpotifyBackend
